import Mathlib

/-
  Verification development for generate-ships.py (starstrafe repository).

  The script builds one starfighter mesh per seed by appending Blender bmesh
  primitives (cones, cubes, icospheres, hand-built polygons) with material
  tags.  The shallow embedding below models:
    * Python's global `random` stream as an explicit state: an index into an
      infinite sequence of rationals in [0,1).  `uniform a b` maps the next
      draw u to a + (b-a)*u; `choice l` picks l[min ⌊u*|l|⌋ (|l|-1)] (Python's
      choice always returns a member of the list; the clamp totalizes the
      model for out-of-range sequences).  `random.seed(s)` is modelled by a
      concrete deterministic stream derived from the string via an LCG, so a
      non-empty seed replaces the pre-existing stream state.
    * The bmesh accumulator as the list of appended primitives, each recording
      the constructor parameters from the source call (cap_ends, segments,
      radii, depth, translation, axis rotation, scale vector, polygon outline,
      extrusion vector) and the material index set by add_to_mesh.
      Rotations are recorded symbolically (axis + angle in degrees) since no
      claim depends on evaluated trigonometry.  Geometry values are rationals:
      every constant in the source is an exact decimal.
    * Each generator function returns the entries it appends (in source
      order) together with the advanced random state; loops over
      `[-1, 1]` / `range(4)` are unrolled with draws in source order.
-/

namespace Ships

/-- Material indices, mirroring the `Material` IntEnum of the source. -/
inductive Material where
  | hull
  | hull_accent
  | hull_dark
  | engine_glow
  | cockpit
deriving DecidableEq, Inhabited

/-- Fuselage styles drawn in `create_fuselage`. -/
inductive FuselageStyle where
  | pointed
  | rounded
  | angular
  | pod
deriving DecidableEq, Inhabited

/-- Wing styles drawn in `add_wings` (`xwing` stands for the source's "x-wing"). -/
inductive WingStyle where
  | xwing
  | swept
  | delta
  | vertical
  | ring
  | stub
deriving DecidableEq, Inhabited

/-- Engine styles drawn in `add_engines`. -/
inductive EngineStyle where
  | rear
  | wing_tip
  | pod
  | central
deriving DecidableEq, Inhabited

/-- A 3D vector with rational coordinates (mathutils.Vector). -/
structure Vec3 where
  x : ℚ
  y : ℚ
  z : ℚ
deriving DecidableEq, Inhabited

/-- Symbolic axis rotation from the placement matrix (angle in degrees). -/
inductive Rot where
  | id
  | rotX (deg : ℚ)
  | rotY (deg : ℚ)
deriving DecidableEq, Inhabited

/-- One appended bmesh primitive, recording the parameters of the source call:
`cone` = bmesh.ops.create_cone (capEnds, segments, radius1, radius2, depth,
translation, rotation); `cube` = bmesh.ops.create_cube with the scale vector
from the stacked Matrix.Scale factors; `icosphere` = bmesh.ops.create_icosphere
with an axis scale (Matrix.Scale or the later bmesh.ops.scale);
`beveledCube` = create_cube followed by bmesh.ops.bevel on all edges;
`ngon` = bm.faces.new on hand-built verts, extruded and translated by a vector. -/
inductive Prim where
  | cone (capEnds : Bool) (segments : ℕ) (radius1 radius2 depth : ℚ) (pos : Vec3) (rot : Rot)
  | cube (size : ℚ) (pos : Vec3) (scale : Vec3) (rot : Rot)
  | icosphere (subdivisions : ℕ) (radius : ℚ) (scale : Vec3) (pos : Vec3)
  | beveledCube (size bevelOffset : ℚ) (bevelSegments : ℕ)
  | ngon (outline : List Vec3) (extrude : Vec3)
deriving DecidableEq, Inhabited

/-- A primitive together with the material index `add_to_mesh` assigns to its
faces. -/
structure MeshEntry where
  prim : Prim
  material : Material
deriving DecidableEq, Inhabited

/-- Material assignment of a mesh: one tag per appended primitive's faces. -/
def materialsOf (l : List MeshEntry) : List Material :=
  l.map fun e => e.material

/-- State of the global random stream: current index plus the underlying
sequence of unit-interval draws. -/
def RandState : Type := ℕ × (ℕ → ℚ)

/-- A stream is valid when every draw lies in [0,1), as Python's random() does. -/
def validState (g : RandState) : Prop := ∀ n, 0 ≤ g.2 n ∧ g.2 n < 1

/-- Draw `random()`: the next unit-interval value, advancing the index. -/
def randomDraw (g : RandState) : ℚ × RandState :=
  (g.2 g.1, (g.1 + 1, g.2))

/-- Draw `uniform(a, b) = a + (b-a) * random()`. -/
def uniform (a b : ℚ) (g : RandState) : ℚ × RandState :=
  (a + (b - a) * g.2 g.1, (g.1 + 1, g.2))

/-- Index chosen by `random.choice` on a list of length n, modelled from one
unit draw; the clamp keeps the index in range for any rational input. -/
def choiceIdx (u : ℚ) (n : ℕ) : ℕ :=
  min ⌊u * (n : ℚ)⌋₊ (n - 1)

/-- Draw `random.choice(l)`: an element of `l` selected by the next draw. -/
def choice {α : Type} [Inhabited α] (l : List α) (g : RandState) : α × RandState :=
  (l.getD (choiceIdx (g.2 g.1) l.length) default, (g.1 + 1, g.2))

/-- The fuselage style draw, `choice(['pointed', 'rounded', 'angular', 'pod'])`. -/
def fuselageChoice (g : RandState) : FuselageStyle × RandState :=
  choice [FuselageStyle.pointed, FuselageStyle.rounded, FuselageStyle.angular,
    FuselageStyle.pod] g

/-- The wing style draw, `choice(['x-wing', 'swept', 'delta', 'vertical', 'ring', 'stub'])`. -/
def wingChoice (g : RandState) : WingStyle × RandState :=
  choice [WingStyle.xwing, WingStyle.swept, WingStyle.delta, WingStyle.vertical,
    WingStyle.ring, WingStyle.stub] g

/-- The engine style draw, `choice(['rear', 'wing_tip', 'pod', 'central'])`. -/
def engineChoice (g : RandState) : EngineStyle × RandState :=
  choice [EngineStyle.rear, EngineStyle.wing_tip, EngineStyle.pod,
    EngineStyle.central] g

/-- Embedding of `create_fuselage`: draws the style, then the style's continuous
parameters in source order, and returns (style, appended entries).  The
`pointed` branch draws an unused height (consumed for stream fidelity); the
`pod` branch records the post-hoc bmesh.ops.scale stretch as the icosphere's
x-scale, since the sphere is the only geometry in the bmesh at that point. -/
def create_fuselage (g0 : RandState) : (FuselageStyle × List MeshEntry) × RandState :=
  let c := fuselageChoice g0
  match c.1 with
  | FuselageStyle.pointed =>
    let l := uniform (3/2) (5/2) c.2
    let w := uniform (2/5) (7/10) l.2
    let h := uniform (3/10) (1/2) w.2
    ((FuselageStyle.pointed,
      [⟨Prim.cone true 8 (w.1 * (3/10)) w.1 (l.1 * (3/5)) ⟨0, 0, 0⟩ (Rot.rotY 90),
         Material.hull⟩,
       ⟨Prim.cone true 8 w.1 (w.1 * (7/10)) (l.1 * (2/5)) ⟨-(l.1 * (1/2)), 0, 0⟩
         (Rot.rotY 90), Material.hull⟩]), h.2)
  | FuselageStyle.rounded =>
    let l := uniform (9/5) (14/5) c.2
    let w := uniform (1/2) (4/5) l.2
    ((FuselageStyle.rounded,
      [⟨Prim.icosphere 2 w.1 ⟨l.1 / w.1 / 2, 1, 1⟩ ⟨0, 0, 0⟩, Material.hull⟩]), w.2)
  | FuselageStyle.angular =>
    let s := uniform (3/5) 1 c.2
    ((FuselageStyle.angular,
      [⟨Prim.beveledCube s.1 (s.1 * (1/10)) 2, Material.hull⟩]), s.2)
  | FuselageStyle.pod =>
    let r := uniform (1/2) (4/5) c.2
    let st := uniform (6/5) (9/5) r.2
    ((FuselageStyle.pod,
      [⟨Prim.icosphere 2 r.1 ⟨st.1, 1, 1⟩ ⟨0, 0, 0⟩, Material.hull⟩]), st.2)

/-- The sphere-derived canopy entry (pointed/rounded fuselages). -/
def canopySphere (canopySize yOffset xOffset : ℚ) : MeshEntry :=
  ⟨Prim.icosphere 2 canopySize ⟨1, 1, 1⟩ ⟨xOffset, yOffset, 0⟩, Material.cockpit⟩

/-- The cube-derived canopy entry (angular/pod fuselages). -/
def canopyCube (canopySize yOffset : ℚ) : MeshEntry :=
  ⟨Prim.cube (canopySize * (3/2)) ⟨0, yOffset, 0⟩ ⟨1, 1, 1⟩ Rot.id, Material.cockpit⟩

/-- Embedding of `add_cockpit_canopy`: when the gate draw exceeds 0.3, one
cockpit-tagged primitive is appended (sphere-derived for pointed/rounded,
cube-derived otherwise); otherwise nothing is appended and the function
returns normally. -/
def add_cockpit_canopy (fs : FuselageStyle) (g0 : RandState) :
    List MeshEntry × RandState :=
  let u := randomDraw g0
  if u.1 > 3/10 then
    let cs := uniform (1/5) (2/5) u.2
    let yo := uniform (1/10) (1/4) cs.2
    if fs = FuselageStyle.pointed ∨ fs = FuselageStyle.rounded then
      let xo := uniform (-(1/5)) (3/10) yo.2
      ([canopySphere cs.1 yo.1 xo.1], xo.2)
    else
      ([canopyCube cs.1 yo.1], yo.2)
  else ([], u.2)

/-- One x-wing panel: unit cube translated to (x, 0, len/2), scaled by
(width, thickness, length), rotated about X by the spread angle with the
source's sign pattern, material alternating hull / hull_accent. -/
def xwingPanel (wingLength wingWidth wingThickness spreadAngle : ℚ) (i : ℕ)
    (x : ℚ) : MeshEntry :=
  ⟨Prim.cube 1 ⟨x, 0, wingLength * (1/2)⟩ ⟨wingWidth, wingThickness, wingLength⟩
     (Rot.rotX ((if i < 2 then spreadAngle else -spreadAngle) *
       (if i % 2 = 0 then 1 else -1))),
   if i % 2 = 0 then Material.hull else Material.hull_accent⟩

/-- Outline of one swept wing, in source vertex order. -/
def sweptVerts (wingLength wingWidth sweep side : ℚ) : List Vec3 :=
  [⟨0, 0, (1/5) * side⟩,
   ⟨-(wingWidth * sweep), 0, wingLength * side⟩,
   ⟨wingWidth * (1 - sweep), 0, wingLength * side⟩,
   ⟨wingWidth * (3/10), 0, (3/10) * side⟩]

/-- One swept wing: the outline (reversed for the mirrored side, as the source
reverses the vertex list for side ≤ 0) extruded by (0, t, 0). -/
def sweptWing (wingLength wingWidth sweep side t : ℚ) : MeshEntry :=
  ⟨Prim.ngon (if side > 0 then sweptVerts wingLength wingWidth sweep side
      else (sweptVerts wingLength wingWidth sweep side).reverse) ⟨0, t, 0⟩,
   Material.hull_accent⟩

/-- Outline of one delta wing, in source vertex order. -/
def deltaVerts (wingSpan wingLength side : ℚ) : List Vec3 :=
  [⟨wingLength * (1/2), 0, 0⟩,
   ⟨-(wingLength * (1/2)), 0, wingSpan * (1/2) * side⟩,
   ⟨-(wingLength * (3/10)), 0, (1/10) * side⟩]

/-- One delta wing, extruded by (0, t, 0). -/
def deltaWing (wingSpan wingLength side t : ℚ) : MeshEntry :=
  ⟨Prim.ngon (if side > 0 then deltaVerts wingSpan wingLength side
      else (deltaVerts wingSpan wingLength side).reverse) ⟨0, t, 0⟩,
   Material.hull_accent⟩

/-- Hexagonal vertical-wing panel: 6-segment cone of depth 0.05, hull_dark. -/
def hexPanel (wingHeight wingWidth side : ℚ) : MeshEntry :=
  ⟨Prim.cone true 6 (wingHeight * (1/2)) (wingHeight * (1/2)) (1/20)
     ⟨0, 0, wingWidth * (3/5) * side⟩ (Rot.rotY 90), Material.hull_dark⟩

/-- Rectangular vertical-wing panel: unit cube scaled (0.8·width, height, 0.05),
hull_dark. -/
def rectPanel (wingHeight wingWidth side : ℚ) : MeshEntry :=
  ⟨Prim.cube 1 ⟨0, 0, wingWidth * (3/5) * side⟩
     ⟨wingWidth * (4/5), wingHeight, 1/20⟩ Rot.id, Material.hull_dark⟩

/-- Vertical-wing strut: unit cube scaled (0.1, 0.1, 0.3·width), hull. -/
def wingStrut (wingWidth side : ℚ) : MeshEntry :=
  ⟨Prim.cube 1 ⟨0, 0, wingWidth * (3/10) * side⟩
     ⟨1/10, 1/10, wingWidth * (3/10)⟩ Rot.id, Material.hull⟩

/-- The two ring-wing shells: concentric capless 32-segment cylinders, the
inner one at 0.85 of the outer radius and 1.5 of the thickness, outer tagged
hull_accent and inner hull_dark. -/
def ringEntries (ringRadius ringThickness : ℚ) : List MeshEntry :=
  [⟨Prim.cone false 32 ringRadius ringRadius ringThickness ⟨0, 0, 0⟩
      (Rot.rotY 90), Material.hull_accent⟩,
   ⟨Prim.cone false 32 (ringRadius * (17/20)) (ringRadius * (17/20))
      (ringThickness * (3/2)) ⟨0, 0, 0⟩ (Rot.rotY 90), Material.hull_dark⟩]

/-- One stub wing: unit cube translated and scaled by the drawn factors,
hull_accent. -/
def stubWing (wingLength side x sx sy : ℚ) : MeshEntry :=
  ⟨Prim.cube 1 ⟨x, 0, wingLength * (3/5) * side⟩ ⟨sx, sy, wingLength⟩ Rot.id,
   Material.hull_accent⟩

/-- Embedding of `add_wings`: draws the style, then the style's continuous
parameters and per-side draws in source order (loops over sides / range(4)
unrolled; panel creation itself consumes no draws, so hoisting the per-side
draws before the list literal preserves the stream).  Returns (style, appended
entries). -/
def add_wings (g0 : RandState) : (WingStyle × List MeshEntry) × RandState :=
  let c := wingChoice g0
  match c.1 with
  | WingStyle.xwing =>
    let wl := uniform (3/2) (5/2) c.2
    let ww := uniform (3/5) 1 wl.2
    let wt := uniform (3/100) (2/25) ww.2
    let sa := uniform 15 35 wt.2
    let x0 := uniform (-(3/10)) (1/10) sa.2
    let x1 := uniform (-(3/10)) (1/10) x0.2
    let x2 := uniform (-(3/10)) (1/10) x1.2
    let x3 := uniform (-(3/10)) (1/10) x2.2
    ((WingStyle.xwing,
      [xwingPanel wl.1 ww.1 wt.1 sa.1 0 x0.1,
       xwingPanel wl.1 ww.1 wt.1 sa.1 1 x1.1,
       xwingPanel wl.1 ww.1 wt.1 sa.1 2 x2.1,
       xwingPanel wl.1 ww.1 wt.1 sa.1 3 x3.1]), x3.2)
  | WingStyle.swept =>
    let wl := uniform (6/5) 2 c.2
    let ww := uniform (4/5) (7/5) wl.2
    let sw := uniform (3/10) (7/10) ww.2
    let t1 := uniform (3/100) (2/25) sw.2
    let t2 := uniform (3/100) (2/25) t1.2
    ((WingStyle.swept,
      [sweptWing wl.1 ww.1 sw.1 (-1) t1.1, sweptWing wl.1 ww.1 sw.1 1 t2.1]), t2.2)
  | WingStyle.delta =>
    let ws := uniform (3/2) (5/2) c.2
    let wl := uniform 1 (9/5) ws.2
    let t1 := uniform (1/25) (1/10) wl.2
    let t2 := uniform (1/25) (1/10) t1.2
    ((WingStyle.delta,
      [deltaWing ws.1 wl.1 (-1) t1.1, deltaWing ws.1 wl.1 1 t2.1]), t2.2)
  | WingStyle.vertical =>
    let wh := uniform (3/2) (5/2) c.2
    let ww := uniform 1 (9/5) wh.2
    let u1 := randomDraw ww.2
    let u2 := randomDraw u1.2
    ((WingStyle.vertical,
      [if u1.1 > 1/2 then hexPanel wh.1 ww.1 (-1) else rectPanel wh.1 ww.1 (-1),
       wingStrut ww.1 (-1),
       if u2.1 > 1/2 then hexPanel wh.1 ww.1 1 else rectPanel wh.1 ww.1 1,
       wingStrut ww.1 1]), u2.2)
  | WingStyle.ring =>
    let rr := uniform (6/5) 2 c.2
    let rt := uniform (1/10) (1/5) rr.2
    ((WingStyle.ring, ringEntries rr.1 rt.1), rt.2)
  | WingStyle.stub =>
    let wl := uniform (1/2) (4/5) c.2
    let xa := uniform (-(1/5)) (1/5) wl.2
    let sxa := uniform (2/5) (7/10) xa.2
    let sya := uniform (1/20) (3/25) sxa.2
    let xb := uniform (-(1/5)) (1/5) sya.2
    let sxb := uniform (2/5) (7/10) xb.2
    let syb := uniform (1/20) (3/25) sxb.2
    ((WingStyle.stub,
      [stubWing wl.1 (-1) xa.1 sxa.1 sya.1, stubWing wl.1 1 xb.1 sxb.1 syb.1]),
     syb.2)

/-- Rear-engine positions: `num` points at x = -0.8, y = 0, spread along z at
spacing 0.25: z = (i - (num-1)/2) * 0.25. -/
def rearPositions (num : ℕ) : List Vec3 :=
  (List.range num).map fun (i : ℕ) =>
    ⟨-(4/5), 0, ((i : ℚ) - ((num : ℚ) - 1) / 2) * (1/4)⟩

/-- The housing + glow cone pair appended for one engine position. -/
def enginePair (engineRadius engineLength : ℚ) (p : Vec3) : List MeshEntry :=
  [⟨Prim.cone true 12 engineRadius (engineRadius * (4/5)) engineLength p
      (Rot.rotY 90), Material.hull_dark⟩,
   ⟨Prim.cone true 12 (engineRadius * (7/10)) (engineRadius * (1/2))
      (engineLength * (3/10)) ⟨p.x - engineLength * (1/2), p.y, p.z⟩
      (Rot.rotY 90), Material.engine_glow⟩]

/-- All engine entries: one housing + glow pair per position. -/
def engineEntries (engineRadius engineLength : ℚ) (ps : List Vec3) :
    List MeshEntry :=
  ps.flatMap (enginePair engineRadius engineLength)

/-- Embedding of `add_engines`: draws the engine style, radius and length, then
branches — rear placement when the drawn style is rear OR the wing style is
vertical; wing_tip with an optional four extra positions; pod with 1.5×
scaling; central with radius ×2 and length ×1.5.  Returns the drawn style, the
computed position list, and the appended entries. -/
def add_engines (ws : WingStyle) (g0 : RandState) :
    (EngineStyle × List Vec3 × List MeshEntry) × RandState :=
  let c := engineChoice g0
  let r := uniform (1/10) (1/4) c.2
  let l := uniform (3/10) (3/5) r.2
  if c.1 = EngineStyle.rear ∨ ws = WingStyle.vertical then
    let n := choice [1, 2, 3] l.2
    ((c.1, rearPositions n.1, engineEntries r.1 l.1 (rearPositions n.1)), n.2)
  else if c.1 = EngineStyle.wing_tip then
    let s := uniform 1 (9/5) l.2
    let x1 := uniform (-(3/10)) (1/10) s.2
    let x2 := uniform (-(3/10)) (1/10) x1.2
    let u := randomDraw x2.2
    if u.1 > 1/2 then
      let x3 := uniform (-(3/10)) (1/10) u.2
      let x4 := uniform (-(3/10)) (1/10) x3.2
      let x5 := uniform (-(3/10)) (1/10) x4.2
      let x6 := uniform (-(3/10)) (1/10) x5.2
      let ps : List Vec3 :=
        [⟨x1.1, 0, s.1⟩, ⟨x2.1, 0, -s.1⟩,
         ⟨x3.1, s.1 * (3/10), s.1 * (1/2)⟩, ⟨x4.1, -(s.1 * (3/10)), s.1 * (1/2)⟩,
         ⟨x5.1, s.1 * (3/10), -(s.1 * (1/2))⟩, ⟨x6.1, -(s.1 * (3/10)), -(s.1 * (1/2))⟩]
      ((c.1, ps, engineEntries r.1 l.1 ps), x6.2)
    else
      let ps : List Vec3 := [⟨x1.1, 0, s.1⟩, ⟨x2.1, 0, -s.1⟩]
      ((c.1, ps, engineEntries r.1 l.1 ps), u.2)
  else if c.1 = EngineStyle.pod then
    let p := uniform (1/2) (9/10) l.2
    let ps : List Vec3 := [⟨-(3/10), 0, p.1⟩, ⟨-(3/10), 0, -p.1⟩]
    ((c.1, ps, engineEntries (r.1 * (3/2)) (l.1 * (3/2)) ps), p.2)
  else
    let ps : List Vec3 := [⟨-(7/10), 0, 0⟩]
    ((c.1, ps, engineEntries (r.1 * 2) (l.1 * (3/2)) ps), l.2)

/-- One nose gun cone (hull_dark). -/
def gunCone (gunLength gunRadius gunSpread side : ℚ) : MeshEntry :=
  ⟨Prim.cone true 6 gunRadius gunRadius gunLength
     ⟨gunLength * (1/2) + 1/2, 0, gunSpread * side⟩ (Rot.rotY 90),
   Material.hull_dark⟩

/-- One wing-mounted weapon cone (hull_dark). -/
def weaponCone (x z : ℚ) : MeshEntry :=
  ⟨Prim.cone true 6 (3/100) (3/100) (1/2) ⟨x, 0, z⟩ (Rot.rotY 90),
   Material.hull_dark⟩

/-- The sensor/antenna cone (hull_accent). -/
def sensorCone : MeshEntry :=
  ⟨Prim.cone true 8 0 (1/10) (3/20) ⟨3/10, 3/10, 0⟩ (Rot.rotX (-90)),
   Material.hull_accent⟩

/-- Embedding of `add_details`: three independently gated additions — nose guns
(draw > 0.4), wing weapons (draw > 0.5), sensor cone (draw > 0.6), each
drawing its parameters in source order when taken. -/
def add_details (g0 : RandState) : List MeshEntry × RandState :=
  let u1 := randomDraw g0
  let p1 :=
    if u1.1 > 2/5 then
      let gl := uniform (2/5) (4/5) u1.2
      let gr := uniform (1/50) (1/20) gl.2
      let gs := uniform (3/20) (7/20) gr.2
      ([gunCone gl.1 gr.1 gs.1 (-1), gunCone gl.1 gr.1 gs.1 1], gs.2)
    else ([], u1.2)
  let u2 := randomDraw p1.2
  let p2 :=
    if u2.1 > 1/2 then
      let xa := uniform 0 (1/2) u2.2
      let za := uniform (4/5) (3/2) xa.2
      let xb := uniform 0 (1/2) za.2
      let zb := uniform (4/5) (3/2) xb.2
      ([weaponCone xa.1 (za.1 * (-1)), weaponCone xb.1 zb.1], zb.2)
    else ([], u2.2)
  let u3 := randomDraw p2.2
  let p3 := if u3.1 > 3/5 then [sensorCone] else []
  (p1.1 ++ p2.1 ++ p3, u3.2)

/-- A simple string hash, seeding the model stream from a seed string. -/
def stringHash (s : String) : ℕ :=
  s.data.foldl (fun h c => h * 31 + c.toNat + 1) 7

/-- One LCG step on 31-bit states, the model of the seeded generator. -/
def lcgStep (x : ℕ) : ℕ :=
  (x * 1103515245 + 12345) % 2 ^ 31

/-- The deterministic unit-interval sequence produced by seeding with `s`:
model of the stream after `random.seed(s)`. -/
def seedSeq (s : String) (n : ℕ) : ℚ :=
  ((lcgStep^[n + 1] (stringHash s) : ℕ) : ℚ) / 2 ^ 31

/-- The stream state right after `random.seed(s)`. -/
def seedState (s : String) : RandState :=
  (0, seedSeq s)

/-- The body of one generation run: the five generators in source order on one
growing mesh, threading the random state. -/
def generate_body (g0 : RandState) : List MeshEntry × RandState :=
  let f := create_fuselage g0
  let cn := add_cockpit_canopy f.1.1 f.2
  let w := add_wings cn.2
  let e := add_engines w.1.1 w.2
  let d := add_details e.2
  (f.1.2 ++ cn.1 ++ w.1.2 ++ e.1.2.2 ++ d.1, d.2)

/-- Embedding of `generate_starfighter(random_seed='')`: a non-empty seed
string re-seeds the stream (discarding the pre-existing state `g`); the empty
default leaves the pre-existing stream state in effect. -/
def generate_starfighter (random_seed : String) (g : RandState) :
    List MeshEntry × RandState :=
  if random_seed.isEmpty then generate_body g
  else generate_body (seedState random_seed)

/-- A constant-valued stream state. -/
def constState (q : ℚ) : RandState := (0, fun _ => q)

/-- The all-1/2 stream state. -/
def halfState : RandState := constState (1/2)

/-- The non-empty seed string used as the concrete witness input. -/
def seed42 : String := "42"

/-- The empty seed string, the default argument of `generate_starfighter`. -/
def emptySeed : String := ""

/-- Expected engine-position count per branch of `add_engines`: 1–3 when the
drawn style is rear or the wing style forces rear placement, 2 or 6 for
wing_tip, 2 for pod, 1 for central. -/
def positionCountOK (ws : WingStyle) (es : EngineStyle) (k : ℕ) : Prop :=
  if es = EngineStyle.rear ∨ ws = WingStyle.vertical then k = 1 ∨ k = 2 ∨ k = 3
  else if es = EngineStyle.wing_tip then k = 2 ∨ k = 6
  else if es = EngineStyle.pod then k = 2
  else k = 1

/-- Every entry of the list is tagged hull, hull_accent or hull_dark. -/
def wingMaterialOK (l : List MeshEntry) : Prop :=
  ∀ e ∈ l, e.material = Material.hull ∨ e.material = Material.hull_accent ∨
    e.material = Material.hull_dark

/-- Thin dimension of a wing primitive, per claim C5's parameter list: a cone
panel or ring's depth, the smallest scaled extent of a cube panel/strut/stub,
an extruded polygon's extrusion height, otherwise the primitive's radius or
size (unused by wings). -/
def wingThickness : Prim → ℚ
  | Prim.cone _ _ _ _ depth _ _ => depth
  | Prim.cube size _ s _ => size * min s.x (min s.y s.z)
  | Prim.icosphere _ r _ _ => r
  | Prim.beveledCube s _ _ => s
  | Prim.ngon _ e => e.y

/-- Every entry's thin dimension is at least 0.03 units. -/
def wingThickOK (l : List MeshEntry) : Prop :=
  ∀ e ∈ l, 3/100 ≤ wingThickness e.prim

/-- The x-scale of the first icosphere entry of a list (the elongation or
stretch factor of a rounded/pod fuselage). -/
def icoScaleX (l : List MeshEntry) : ℚ :=
  match l with
  | ⟨Prim.icosphere _ _ s _, _⟩ :: _ => s.x
  | _ => 0

/-- Canopy outcome contract (the amended C9): the canopy is appended exactly
when the gate draw exceeds 0.3, as one cockpit-tagged primitive — a sphere for
pointed/rounded fuselages with a randomized upward offset in [0.1, 0.25) and a
randomized axial offset in [-0.2, 0.3) (possibly backward), a cube otherwise
with only the upward offset; when the draw is ≤ 0.3 nothing is appended and
the run still returns normally. -/
def canopyOutcome (fs : FuselageStyle) (g : RandState) : Prop :=
  (g.2 g.1 > 3/10 →
    ((fs = FuselageStyle.pointed ∨ fs = FuselageStyle.rounded) →
      ∃ cs yo xo, 1/5 ≤ cs ∧ cs < 2/5 ∧ 1/10 ≤ yo ∧ yo < 1/4 ∧
        -(1/5) ≤ xo ∧ xo < 3/10 ∧
        (add_cockpit_canopy fs g).1 = [canopySphere cs yo xo]) ∧
    ((fs = FuselageStyle.angular ∨ fs = FuselageStyle.pod) →
      ∃ cs yo, 1/5 ≤ cs ∧ cs < 2/5 ∧ 1/10 ≤ yo ∧ yo < 1/4 ∧
        (add_cockpit_canopy fs g).1 = [canopyCube cs yo])) ∧
  (g.2 g.1 ≤ 3/10 → (add_cockpit_canopy fs g).1 = [])

/-- Stream drawing engine style "central" (first draw 3/4) and then 2 rear
engines (later draws 1/2). -/
def gC3 : RandState := (0, fun n => if n = 0 then 3/4 else 1/2)

/-- Stream drawing wing style "vertical" (all draws 11/20). -/
def gV : RandState := constState (11/20)

/-- Stream drawing wing style "ring" (all draws 7/10). -/
def gR : RandState := constState (7/10)

/-- Stream drawing fuselage style "pod" with the minimal stretch factor region
(all draws 3/4). -/
def gP8 : RandState := constState (3/4)

/-- Stream drawing fuselage style "rounded" with a long, narrow body:
first draw 1/4 (style), second 99/100 (length), rest 0 (width). -/
def gR8 : RandState := (0, fun n => if n = 0 then 1/4 else if n = 1 then 99/100 else 0)

/-- Stream passing the canopy gate (first draw 1/2) and then drawing the
minimum of every range (later draws 0), putting the sphere canopy at the
backmost axial offset -0.2. -/
def gN : RandState := (0, fun n => if n = 0 then 1/2 else 0)

theorem choiceIdx_lt (u : ℚ) (n : ℕ) (hn : 0 < n) : choiceIdx u n < n := by
  unfold choiceIdx
  omega

theorem choiceIdx_eq {u : ℚ} {n k : ℕ} (h0 : 0 ≤ u)
    (hlo : (k : ℚ) ≤ u * n) (hhi : u * n < k + 1) (hk : k ≤ n - 1) :
    choiceIdx u n = k := by
  have hf : ⌊u * (n : ℚ)⌋₊ = k :=
    (Nat.floor_eq_iff (by positivity)).mpr ⟨hlo, hhi⟩
  unfold choiceIdx
  rw [hf]
  omega

theorem choice123_cases (g : RandState) :
    (choice [1, 2, 3] g).1 = 1 ∨ (choice [1, 2, 3] g).1 = 2 ∨
      (choice [1, 2, 3] g).1 = 3 := by
  have h : choiceIdx (g.2 g.1) 3 < 3 := choiceIdx_lt _ 3 (by omega)
  have h2 : choiceIdx (g.2 g.1) 3 = 0 ∨ choiceIdx (g.2 g.1) 3 = 1 ∨
      choiceIdx (g.2 g.1) 3 = 2 := by omega
  rcases h2 with h2 | h2 | h2 <;> simp [choice, h2]

theorem rearPositions_length (num : ℕ) : (rearPositions num).length = num := by
  rw [rearPositions, List.length_map, List.length_range]

theorem rearPositions_behind (num : ℕ) :
    ∀ p ∈ rearPositions num, p.x = -(4/5) ∧ p.y = 0 := by
  intro p hp
  simp only [rearPositions, List.mem_map] at hp
  obtain ⟨i, _, rfl⟩ := hp
  exact ⟨rfl, rfl⟩

theorem engineEntries_length (r l : ℚ) (ps : List Vec3) :
    (engineEntries r l ps).length = 2 * ps.length := by
  induction ps with
  | nil => rfl
  | cons p ps ih =>
    rw [engineEntries, List.flatMap_cons, List.length_append]
    rw [engineEntries] at ih
    rw [ih, List.length_cons]
    simp only [enginePair, List.length_cons, List.length_nil]
    omega

theorem halfState_valid : validState halfState := by
  intro n
  constructor <;> norm_num [halfState, constState]

theorem choice123_bounds (gs : RandState) :
    1 ≤ (choice [1, 2, 3] gs).1 ∧ (choice [1, 2, 3] gs).1 ≤ 3 := by
  rcases choice123_cases gs with h | h | h <;> rw [h] <;> omega

theorem rearPositions_ne_nil {num : ℕ} (h : num ≠ 0) : rearPositions num ≠ [] := by
  intro hnil
  have hlen := rearPositions_length num
  rw [hnil] at hlen
  simp at hlen
  omega

theorem uniform_fst_lb2 {g0 : RandState} (hv : validState g0) (a b t : ℚ)
    (hab : a ≤ b) (ht : t ≤ a) : t ≤ (uniform a b g0).1 := by
  show t ≤ a + (b - a) * g0.2 g0.1
  have h := hv g0.1
  nlinarith

theorem uniform_fst_mul_lb {g0 : RandState} (hv : validState g0) (a b c t : ℚ)
    (hab : a ≤ b) (hc : 0 ≤ c) (ht : t ≤ a * c) :
    t ≤ (uniform a b g0).1 * c := by
  show t ≤ (a + (b - a) * g0.2 g0.1) * c
  have h := hv g0.1
  nlinarith [mul_nonneg (mul_nonneg (sub_nonneg.mpr hab) h.1) hc]

theorem xwingPanel_thickness (wl ww wt sa : ℚ) (i : ℕ) (x : ℚ)
    (h1 : 3/100 ≤ wl) (h2 : 3/100 ≤ ww) (h3 : 3/100 ≤ wt) :
    3/100 ≤ wingThickness (xwingPanel wl ww wt sa i x).prim := by
  simp only [xwingPanel, wingThickness, one_mul, le_min_iff]
  exact ⟨h2, h3, h1⟩

theorem sweptWing_thickness (wl ww sw side t : ℚ) (h : 3/100 ≤ t) :
    3/100 ≤ wingThickness (sweptWing wl ww sw side t).prim := by
  simp only [sweptWing, wingThickness]
  exact h

theorem deltaWing_thickness (ws wl side t : ℚ) (h : 3/100 ≤ t) :
    3/100 ≤ wingThickness (deltaWing ws wl side t).prim := by
  simp only [deltaWing, wingThickness]
  exact h

theorem hexPanel_thickness (wh ww side : ℚ) :
    3/100 ≤ wingThickness (hexPanel wh ww side).prim := by
  simp only [hexPanel, wingThickness]
  norm_num

theorem rectPanel_thickness (wh ww side : ℚ) (h1 : 3/100 ≤ ww * (4/5))
    (h2 : 3/100 ≤ wh) :
    3/100 ≤ wingThickness (rectPanel wh ww side).prim := by
  simp only [rectPanel, wingThickness, one_mul, le_min_iff]
  exact ⟨h1, h2, by norm_num⟩

theorem wingStrut_thickness (ww side : ℚ) (h : 3/100 ≤ ww * (3/10)) :
    3/100 ≤ wingThickness (wingStrut ww side).prim := by
  simp only [wingStrut, wingThickness, one_mul, le_min_iff]
  exact ⟨by norm_num, by norm_num, h⟩

theorem stubWing_thickness (wl side x sx sy : ℚ) (h1 : 3/100 ≤ sx)
    (h2 : 3/100 ≤ sy) (h3 : 3/100 ≤ wl) :
    3/100 ≤ wingThickness (stubWing wl side x sx sy).prim := by
  simp only [stubWing, wingThickness, one_mul, le_min_iff]
  exact ⟨h1, h2, h3⟩

theorem add_engines_style (ws : WingStyle) (g : RandState) :
    (add_engines ws g).1.1 = (engineChoice g).1 := by
  simp only [add_engines]
  split
  · rfl
  · split
    · split <;> rfl
    · split <;> rfl

theorem rear_branch_count (gs : RandState) :
    ((rearPositions (choice [1, 2, 3] gs).1).length = 1 ∨
     (rearPositions (choice [1, 2, 3] gs).1).length = 2 ∨
     (rearPositions (choice [1, 2, 3] gs).1).length = 3) ∧
    rearPositions (choice [1, 2, 3] gs).1 ≠ [] := by
  constructor
  · rw [rearPositions_length]
    exact choice123_cases gs
  · rcases choice123_cases gs with h | h | h <;> rw [h] <;>
      exact rearPositions_ne_nil (by omega)

/-- C1: for every non-empty seed S, running the full generation (fuselage,
canopy, wings, engines, details) twice with seed S produces identical output —
the same list of tagged primitives, hence the same vertex count, face count,
per-face material assignment, and bounding-box dimensions, which are all
functions of that list.  In the embedding a non-empty seed replaces the
pre-existing stream state by `seedState S`, so the output is a function of S
alone. -/
theorem generation_deterministic (s : String) (h : s.isEmpty = false)
    (g1 g2 : RandState) :
    (generate_starfighter s g1).1 = (generate_starfighter s g2).1 ∧
    materialsOf (generate_starfighter s g1).1 =
      materialsOf (generate_starfighter s g2).1 := by
  simp [generate_starfighter, h]

theorem generation_deterministic_witness :
    (generate_starfighter seed42 (constState 0)).1 =
      (generate_starfighter seed42 halfState).1 ∧
    materialsOf (generate_starfighter seed42 (constState 0)).1 =
      materialsOf (generate_starfighter seed42 halfState).1 :=
  generation_deterministic seed42 (by decide) (constState 0) halfState

/-- C2: whenever the wing style is "vertical", the engine generator uses rear
placement regardless of the independently drawn engine style: the computed
positions are `rearPositions n` for some n ∈ {1,2,3}, every position lying
behind the fuselage (x = -0.8, y = 0) and spread along the lateral z-axis. -/
theorem vertical_forces_rear (g : RandState) :
    ∃ n, (n = 1 ∨ n = 2 ∨ n = 3) ∧
      (add_engines WingStyle.vertical g).1.2.1 = rearPositions n ∧
      ∀ p ∈ rearPositions n, p.x = -(4/5) ∧ p.y = 0 := by
  simp only [add_engines, or_true, if_true]
  exact ⟨_, choice123_cases _, rfl, rearPositions_behind _⟩

/-- C10: calling `generate_starfighter` with the empty-string seed (its
default) does not re-seed the stream: the run consumes the pre-existing global
stream state unchanged, and two calls from different pre-existing states can
produce different meshes. -/
theorem empty_seed_uses_global_state :
    (∀ g : RandState, generate_starfighter emptySeed g = generate_body g) ∧
    (generate_starfighter emptySeed (constState 0)).1 ≠
      (generate_starfighter emptySeed halfState).1 := by
  constructor
  · intro g
    rfl
  · intro h
    have hE : ∀ g : RandState, generate_starfighter emptySeed g = generate_body g :=
      fun _ => rfl
    rw [hE, hE] at h
    have h2 := congrArg (fun l => (List.headI l).prim) h
    have hc0 : choiceIdx ((0 : ℚ)) 4 = 0 :=
      choiceIdx_eq le_rfl (by norm_num) (by norm_num) (by norm_num)
    have hch : choiceIdx ((1 : ℚ)/2) 4 = 2 :=
      choiceIdx_eq (by norm_num) (by norm_num) (by norm_num) (by norm_num)
    have hA : ((generate_body (constState 0)).1.headI).prim =
        Prim.cone true 8 (3/25) (2/5) (9/10) ⟨0, 0, 0⟩ (Rot.rotY 90) := by
      norm_num [generate_body, create_fuselage, fuselageChoice, choice,
        uniform, constState, hc0]
    have hB : ((generate_body halfState).1.headI).prim =
        Prim.beveledCube (4/5) (2/25) 2 := by
      norm_num [generate_body, create_fuselage, fuselageChoice, choice,
        uniform, halfState, constState, hch]
    simp [hA, hB] at h2

/-- C4: for every wing style and every stream state, the engine position list
is non-empty, with the branch-exact counts: 1–3 for rear (or vertical-forced)
placement, 2 or 6 for wing_tip, 2 for pod, 1 for central; no branch can yield
an empty list. -/
theorem engine_positions_nonempty (ws : WingStyle) (g : RandState) :
    positionCountOK ws (add_engines ws g).1.1 (add_engines ws g).1.2.1.length ∧
    (add_engines ws g).1.2.1 ≠ [] := by
  have hs := add_engines_style ws g
  unfold positionCountOK
  rw [hs]
  by_cases hws : ws = WingStyle.vertical
  · subst hws
    simp only [add_engines, or_true, if_true]
    exact rear_branch_count _
  · cases hes : (engineChoice g).1 with
    | rear =>
      rw [if_pos (Or.inl rfl)]
      simp only [add_engines, hes, true_or, if_true]
      exact rear_branch_count _
    | wing_tip =>
      have hc1 : ¬(EngineStyle.wing_tip = EngineStyle.rear ∨ ws = WingStyle.vertical) := by
        simp [hws]
      rw [if_neg hc1, if_pos rfl]
      simp only [add_engines, hes, if_neg hc1, eq_self_iff_true, if_true]
      split <;> simp
    | pod =>
      have hc1 : ¬(EngineStyle.pod = EngineStyle.rear ∨ ws = WingStyle.vertical) := by
        simp [hws]
      have hc2 : EngineStyle.pod ≠ EngineStyle.wing_tip := by simp
      rw [if_neg hc1, if_neg hc2, if_pos rfl]
      simp [add_engines, hes, hws, hc2]
    | central =>
      have hc1 : ¬(EngineStyle.central = EngineStyle.rear ∨ ws = WingStyle.vertical) := by
        simp [hws]
      have hc2 : EngineStyle.central ≠ EngineStyle.wing_tip := by simp
      have hc3 : EngineStyle.central ≠ EngineStyle.pod := by simp
      rw [if_neg hc1, if_neg hc2, if_neg hc3]
      simp [add_engines, hes, hws, hc2, hc3]

/-- C3 counterexample: with wing style "vertical" and a stream whose first
draw selects engine style "central" and whose rear-count draw selects 2, the
engine generator produces 2 positions and 4 cone entries (2 housing+glow
pairs), refuting "exactly 1 engine pair for any state of the random stream". -/
theorem central_vertical_two_pairs :
    (add_engines WingStyle.vertical gC3).1.1 = EngineStyle.central ∧
    (add_engines WingStyle.vertical gC3).1.2.1.length = 2 ∧
    (add_engines WingStyle.vertical gC3).1.2.2.length = 4 := by
  have h1 : choiceIdx ((3 : ℚ)/4) 4 = 3 :=
    choiceIdx_eq (by norm_num) (by norm_num) (by norm_num) (by norm_num)
  have h2 : choiceIdx ((1 : ℚ)/2) 3 = 1 :=
    choiceIdx_eq (by norm_num) (by norm_num) (by norm_num) (by norm_num)
  norm_num [add_engines, engineChoice, choice, uniform, gC3, h1, h2,
    rearPositions_length, engineEntries_length]

/-- C3 amended: when the wing style is "vertical" (so rear placement is
forced) and the drawn engine style is "central", the generator produces
between 1 and 3 housing+glow pairs — one pair per rear position, the count
drawn from {1,2,3} — rather than exactly 1. -/
theorem vertical_rear_pair_counts (g : RandState)
    (h : (add_engines WingStyle.vertical g).1.1 = EngineStyle.central) :
    (add_engines WingStyle.vertical g).1.2.2.length =
      2 * (add_engines WingStyle.vertical g).1.2.1.length ∧
    1 ≤ (add_engines WingStyle.vertical g).1.2.1.length ∧
    (add_engines WingStyle.vertical g).1.2.1.length ≤ 3 := by
  simp only [add_engines, or_true, if_true]
  refine ⟨engineEntries_length _ _ _, ?_⟩
  rw [rearPositions_length]
  exact choice123_bounds _

theorem vertical_rear_pair_counts_witness :
    (add_engines WingStyle.vertical gC3).1.2.2.length =
      2 * (add_engines WingStyle.vertical gC3).1.2.1.length ∧
    1 ≤ (add_engines WingStyle.vertical gC3).1.2.1.length ∧
    (add_engines WingStyle.vertical gC3).1.2.1.length ≤ 3 :=
  vertical_rear_pair_counts gC3 (by
    have h1 : choiceIdx ((3 : ℚ)/4) 4 = 3 :=
      choiceIdx_eq (by norm_num) (by norm_num) (by norm_num) (by norm_num)
    norm_num [add_engines, engineChoice, choice, uniform, gC3, h1])

/-- C6 counterexample: a stream whose draws are all 11/20 selects wing style
"vertical" and appends hexagonal panels tagged hull_dark, refuting "no wing
face is tagged hull_dark". -/
theorem wing_dark_material_example :
    (add_wings gV).1.1 = WingStyle.vertical ∧
    Material.hull_dark ∈ materialsOf (add_wings gV).1.2 := by
  have h1 : choiceIdx ((11 : ℚ)/20) 6 = 3 :=
    choiceIdx_eq (by norm_num) (by norm_num) (by norm_num) (by norm_num)
  norm_num [add_wings, wingChoice, choice, uniform, randomDraw, gV, constState,
    h1, materialsOf, hexPanel, rectPanel, wingStrut]

/-- C6 amended: every entry appended by the wing generator is tagged hull,
hull_accent or hull_dark (vertical-wing panels and the inner ring shell are
hull_dark); no wing entry is tagged engine_glow or cockpit. -/
theorem wing_materials_hull_family (g : RandState) :
    wingMaterialOK (add_wings g).1.2 := by
  unfold wingMaterialOK
  cases hc : (wingChoice g).1 <;>
    simp only [add_wings, hc, ringEntries] <;>
    intro e he <;>
    fin_cases he <;>
    (try split) <;>
    simp [xwingPanel, sweptWing, deltaWing, hexPanel, rectPanel, wingStrut,
      stubWing]

/-- C7: whenever the drawn wing style is "ring", the wing generator appends
exactly two capless (cap_ends false) 32-segment cylindrical shells (equal
radii at both ends), the outer tagged hull_accent and the inner, at 0.85 of
the outer radius and 1.5 of the thickness, tagged hull_dark. -/
theorem ring_wing_shells (g : RandState)
    (h : (add_wings g).1.1 = WingStyle.ring) :
    ∃ rr rt,
      (add_wings g).1.2 =
        [⟨Prim.cone false 32 rr rr rt ⟨0, 0, 0⟩ (Rot.rotY 90), Material.hull_accent⟩,
         ⟨Prim.cone false 32 (rr * (17/20)) (rr * (17/20)) (rt * (3/2)) ⟨0, 0, 0⟩
            (Rot.rotY 90), Material.hull_dark⟩] := by
  cases hc : (wingChoice g).1 <;> simp only [add_wings, hc] at h ⊢
  case ring => exact ⟨_, _, rfl⟩
  all_goals simp at h

theorem ring_wing_shells_witness :
    ∃ rr rt,
      (add_wings gR).1.2 =
        [⟨Prim.cone false 32 rr rr rt ⟨0, 0, 0⟩ (Rot.rotY 90), Material.hull_accent⟩,
         ⟨Prim.cone false 32 (rr * (17/20)) (rr * (17/20)) (rt * (3/2)) ⟨0, 0, 0⟩
            (Rot.rotY 90), Material.hull_dark⟩] :=
  ring_wing_shells gR (by
    have h1 : choiceIdx ((7 : ℚ)/10) 6 = 4 :=
      choiceIdx_eq (by norm_num) (by norm_num) (by norm_num) (by norm_num)
    norm_num [add_wings, wingChoice, choice, uniform, gR, constState, h1])

set_option maxHeartbeats 1000000 in
/-- C5: for every wing style and every valid stream, every thickness
parameter of the appended wing geometry (panel thickness, extrusion offset,
panel depth, ring thickness, stub height — the thin dimension of each
primitive) is at least 0.03 units: each is either a constant ≥ 0.03 or drawn
from a range whose lower bound is ≥ 0.03. -/
theorem wing_thickness_min (g : RandState) (hv : validState g) :
    wingThickOK (add_wings g).1.2 := by
  have hval : ∀ g2 : RandState, g2.2 = g.2 → validState g2 := by
    intro g2 heq n
    rw [heq]
    exact hv n
  unfold wingThickOK
  cases hc : (wingChoice g).1 <;>
    simp only [add_wings, hc, ringEntries] <;>
    intro e he <;>
    simp only [List.mem_cons, List.not_mem_nil, or_false] at he
  case xwing =>
    rcases he with rfl | rfl | rfl | rfl <;>
      apply xwingPanel_thickness <;>
      apply uniform_fst_lb2 <;>
      first
        | exact hval _ rfl
        | norm_num
  case swept =>
    rcases he with rfl | rfl <;>
      apply sweptWing_thickness <;>
      apply uniform_fst_lb2 <;>
      first
        | exact hval _ rfl
        | norm_num
  case delta =>
    rcases he with rfl | rfl <;>
      apply deltaWing_thickness <;>
      apply uniform_fst_lb2 <;>
      first
        | exact hval _ rfl
        | norm_num
  case vertical =>
    rcases he with rfl | rfl | rfl | rfl
    · split
      · apply hexPanel_thickness
      · apply rectPanel_thickness <;>
          first
            | (apply uniform_fst_mul_lb <;> first | exact hval _ rfl | norm_num)
            | (apply uniform_fst_lb2 <;> first | exact hval _ rfl | norm_num)
    · apply wingStrut_thickness
      apply uniform_fst_mul_lb <;>
        first
          | exact hval _ rfl
          | norm_num
    · split
      · apply hexPanel_thickness
      · apply rectPanel_thickness <;>
          first
            | (apply uniform_fst_mul_lb <;> first | exact hval _ rfl | norm_num)
            | (apply uniform_fst_lb2 <;> first | exact hval _ rfl | norm_num)
    · apply wingStrut_thickness
      apply uniform_fst_mul_lb <;>
        first
          | exact hval _ rfl
          | norm_num
  case ring =>
    rcases he with rfl | rfl
    · simp only [wingThickness]
      apply uniform_fst_lb2 <;>
        first
          | exact hval _ rfl
          | norm_num
    · simp only [wingThickness]
      apply uniform_fst_mul_lb <;>
        first
          | exact hval _ rfl
          | norm_num
  case stub =>
    rcases he with rfl | rfl <;>
      apply stubWing_thickness <;>
      apply uniform_fst_lb2 <;>
      first
        | exact hval _ rfl
        | norm_num

theorem wing_thickness_min_witness : wingThickOK (add_wings halfState).1.2 :=
  wing_thickness_min halfState halfState_valid

/-- C8 counterexample: a stream of constant draws 3/4 yields a pod fuselage
with stretch factor 33/20, while the stream (1/4, 99/100, 0, ...) yields a
rounded fuselage with elongation factor 279/100 > 33/20, refuting "for every
pair of draws the pod stretch factor is larger". -/
theorem pod_stretch_not_always_larger :
    (create_fuselage gP8).1.1 = FuselageStyle.pod ∧
    (create_fuselage gR8).1.1 = FuselageStyle.rounded ∧
    icoScaleX (create_fuselage gP8).1.2 < icoScaleX (create_fuselage gR8).1.2 := by
  have hp : choiceIdx ((3 : ℚ)/4) 4 = 3 :=
    choiceIdx_eq (by norm_num) (by norm_num) (by norm_num) (by norm_num)
  have hr : choiceIdx ((1 : ℚ)/4) 4 = 1 :=
    choiceIdx_eq (by norm_num) (by norm_num) (by norm_num) (by norm_num)
  refine ⟨?_, ?_, ?_⟩ <;>
    norm_num [create_fuselage, fuselageChoice, choice, uniform, gP8, gR8,
      constState, hp, hr, icoScaleX]

/-- C8 amended: the pod stretch factor lies in [1.2, 1.8) and the rounded
elongation factor length/width/2 lies in (1.125, 2.8); the pod range's lower
bound 1.2 exceeds the infimum 1.125 of the rounded range, but the two ranges
overlap, so a pod stretch need not exceed every rounded elongation. -/
theorem fuselage_stretch_bounds (g gr : RandState) (hv : validState g)
    (hvr : validState gr) (hp : (create_fuselage g).1.1 = FuselageStyle.pod)
    (hr : (create_fuselage gr).1.1 = FuselageStyle.rounded) :
    6/5 ≤ icoScaleX (create_fuselage g).1.2 ∧
    icoScaleX (create_fuselage g).1.2 < 9/5 ∧
    9/8 < icoScaleX (create_fuselage gr).1.2 ∧
    icoScaleX (create_fuselage gr).1.2 < 14/5 := by
  have hpod : icoScaleX (create_fuselage g).1.2 =
      6/5 + (9/5 - 6/5) * g.2 (g.1 + 1 + 1) := by
    cases hc : (fuselageChoice g).1 <;>
      simp only [create_fuselage, hc] at hp ⊢
    case pod => simp [uniform, icoScaleX, fuselageChoice, choice]
    all_goals simp at hp
  have hrnd : icoScaleX (create_fuselage gr).1.2 =
      (9/5 + (14/5 - 9/5) * gr.2 (gr.1 + 1)) /
        (1/2 + (4/5 - 1/2) * gr.2 (gr.1 + 1 + 1)) / 2 := by
    cases hc : (fuselageChoice gr).1 <;>
      simp only [create_fuselage, hc] at hr ⊢
    case rounded => simp [uniform, icoScaleX, fuselageChoice, choice]
    all_goals simp at hr
  obtain ⟨hs0, hs1⟩ := hv (g.1 + 1 + 1)
  obtain ⟨hl0, hl1⟩ := hvr (gr.1 + 1)
  obtain ⟨hw0, hw1⟩ := hvr (gr.1 + 1 + 1)
  have hWpos : (0 : ℚ) < 1/2 + (4/5 - 1/2) * gr.2 (gr.1 + 1 + 1) := by nlinarith
  refine ⟨?_, ?_, ?_, ?_⟩
  · rw [hpod]; nlinarith
  · rw [hpod]; nlinarith
  · rw [hrnd, div_div, lt_div_iff (by nlinarith)]
    nlinarith
  · rw [hrnd, div_div, div_lt_iff (by nlinarith)]
    nlinarith

theorem fuselage_stretch_bounds_witness :
    6/5 ≤ icoScaleX (create_fuselage gP8).1.2 ∧
    icoScaleX (create_fuselage gP8).1.2 < 9/5 ∧
    9/8 < icoScaleX (create_fuselage gR8).1.2 ∧
    icoScaleX (create_fuselage gR8).1.2 < 14/5 :=
  fuselage_stretch_bounds gP8 gR8
    (by intro n; constructor <;> norm_num [gP8, constState])
    (by intro n
        refine ⟨?_, ?_⟩ <;> rcases n with _ | _ | n <;> norm_num [gR8])
    (by
      have hp : choiceIdx ((3 : ℚ)/4) 4 = 3 :=
        choiceIdx_eq (by norm_num) (by norm_num) (by norm_num) (by norm_num)
      norm_num [create_fuselage, fuselageChoice, choice, uniform, gP8,
        constState, hp])
    (by
      have hr : choiceIdx ((1 : ℚ)/4) 4 = 1 :=
        choiceIdx_eq (by norm_num) (by norm_num) (by norm_num) (by norm_num)
      norm_num [create_fuselage, fuselageChoice, choice, uniform, gR8, hr])

/-- C9 counterexample: for a pointed fuselage and the valid stream
(1/2, 0, 0, ...), the canopy gate passes and the single cockpit sphere is
placed at axial offset -0.2 — behind, not forward of, the fuselage origin —
refuting "offset forward ... by randomized amounts" as stated. -/
theorem canopy_offset_backward_example :
    (add_cockpit_canopy FuselageStyle.pointed gN).1 =
      [⟨Prim.icosphere 2 (1/5) ⟨1, 1, 1⟩ ⟨-(1/5), 1/10, 0⟩, Material.cockpit⟩] ∧
    (-(1/5) : ℚ) < 0 := by
  norm_num [add_cockpit_canopy, uniform, randomDraw, gN, canopySphere]

/-- C9 amended: with probability 0.7 (gate draw > 0.3) the canopy generator
appends exactly one cockpit-tagged primitive — sphere-derived for
pointed/rounded fuselages, with upward offset drawn from [0.1, 0.25) and an
axial offset drawn from [-0.2, 0.3) that may point backward; cube-derived for
angular/pod fuselages, with only the upward offset and no axial offset — and
with probability 0.3 (draw ≤ 0.3) it appends nothing, returning normally. -/
theorem canopy_spec_holds (fs : FuselageStyle) (g : RandState)
    (hv : validState g) : canopyOutcome fs g := by
  obtain ⟨hc0, hc1⟩ := hv (g.1 + 1)
  obtain ⟨hy0, hy1⟩ := hv (g.1 + 1 + 1)
  obtain ⟨hx0, hx1⟩ := hv (g.1 + 1 + 1 + 1)
  unfold canopyOutcome
  refine ⟨fun hu => ⟨fun hfs => ?_, fun hfs => ?_⟩, fun hu => ?_⟩
  · refine ⟨1/5 + (2/5 - 1/5) * g.2 (g.1 + 1),
      1/10 + (1/4 - 1/10) * g.2 (g.1 + 1 + 1),
      -(1/5) + (3/10 - -(1/5)) * g.2 (g.1 + 1 + 1 + 1),
      by nlinarith, by nlinarith, by nlinarith, by nlinarith, by nlinarith,
      by nlinarith, ?_⟩
    simp only [add_cockpit_canopy, randomDraw, uniform]
    rw [if_pos hu, if_pos hfs]
  · have hnfs : ¬(fs = FuselageStyle.pointed ∨ fs = FuselageStyle.rounded) := by
      rcases hfs with rfl | rfl <;> simp
    refine ⟨1/5 + (2/5 - 1/5) * g.2 (g.1 + 1),
      1/10 + (1/4 - 1/10) * g.2 (g.1 + 1 + 1),
      by nlinarith, by nlinarith, by nlinarith, by nlinarith, ?_⟩
    simp only [add_cockpit_canopy, randomDraw, uniform]
    rw [if_pos hu, if_neg hnfs]
  · simp only [add_cockpit_canopy, randomDraw, uniform]
    rw [if_neg (not_lt.mpr hu)]

theorem canopy_spec_holds_witness : canopyOutcome FuselageStyle.pointed halfState :=
  canopy_spec_holds FuselageStyle.pointed halfState halfState_valid

end Ships
